import Mathlib

/-
Verification development for the DataChatbot question-answering core
(chatbot.py).  The two tables are embedded as lists of records, numeric
cells as exact decimals, missing cells as none.  The chatbot object holds
each table as an Option: none models a dataframe that stayed None after a
failed load, and every table access in that state yields the modelled
python NoneType error instead of a value.
-/

set_option maxHeartbeats 1000000

/-- Error raised by python when a method indexes a table that failed to load:
after a load failure the dataframe attributes stay None and subscripting None
raises. -/
inductive PyError
  | noneTypeError
  deriving DecidableEq

/-- Exact decimal number with value num / 10 ^ exp.  Models the numeric cell
values of the two tables; the source holds them as pandas floats and the spec
reasons about them as exact decimals. -/
structure Decimal where
  num : Int
  exp : Nat
  deriving DecidableEq

/-- Denominator of a decimal as an integer. -/
def Decimal.den (x : Decimal) : Int := (10 : Int) ^ x.exp

/-- Exact addition of decimals by aligning exponents. -/
def Decimal.add (x y : Decimal) : Decimal :=
  let e := max x.exp y.exp
  ⟨x.num * (10 : Int) ^ (e - x.exp) + y.num * (10 : Int) ^ (e - y.exp), e⟩

/-- The decimal zero, the start value of a pandas sum. -/
def Decimal.zero : Decimal := ⟨0, 0⟩

/-- Value-level order on decimals, by cross multiplication. -/
def Decimal.le (x y : Decimal) : Bool := decide (x.num * y.den ≤ y.num * x.den)

/-- Rational value of a decimal. -/
def Decimal.toRat (x : Decimal) : ℚ := (x.num : ℚ) / (10 : ℚ) ^ x.exp

/-- Sum of a list of decimals, as computed by a pandas column sum. -/
def sumDec (l : List Decimal) : Decimal := l.foldl Decimal.add Decimal.zero

/-- Sum of a numeric column: missing cells are skipped, matching the pandas
sum over coerced values. -/
def sumCells (l : List (Option Decimal)) : Decimal := sumDec (l.filterMap id)

/-- Decimal digits of a natural number, most significant first. -/
def natDigits (n : Nat) : List Char := Nat.toDigits 10 n

/-- Comma insertion worker: walks the digits least significant first and puts a
comma in front of every third digit. -/
def commasAux : Nat → List Char → List Char
  | _, [] => []
  | k, c :: cs =>
      if k % 3 == 0 && k != 0 then ',' :: c :: commasAux (k + 1) cs
      else c :: commasAux (k + 1) cs

/-- Thousands grouping of a natural number, as produced by the python comma
format specifier. -/
def commify (n : Nat) : String := String.mk ((commasAux 0 (natDigits n).reverse).reverse)

/-- Count of cents: 100 times the value, rounded to the nearest integer with
ties to even, the rounding used when a value is rendered with two decimals.
Division and remainder are the euclidean ones, which agree with floor division
because the denominator is positive. -/
def Decimal.cents (x : Decimal) : Int :=
  let d := x.den
  let a := 100 * x.num
  let q := a / d
  let r := a % d
  if 2 * r < d then q
  else if d < 2 * r then q + 1
  else if q % 2 = 0 then q else q + 1

/-- The value rounded to the nearest integer with ties to even, the rounding
used when a value is rendered with zero decimals. -/
def Decimal.units (x : Decimal) : Int :=
  let d := x.den
  let a := x.num
  let q := a / d
  let r := a % d
  if 2 * r < d then q
  else if d < 2 * r then q + 1
  else if q % 2 = 0 then q else q + 1

/-- Two-digit rendering of a number below one hundred. -/
def twoDigits (n : Nat) : String :=
  if n < 10 then String.mk ('0' :: natDigits n) else String.mk (natDigits n)

/-- Python comma format with two decimals, sign in front. -/
def fmt2 (x : Decimal) : String :=
  (if x.cents < 0 then ("-") else ("")) ++ commify (x.cents.natAbs / 100) ++ (".") ++
    twoDigits (x.cents.natAbs % 100)

/-- Money rendering used by the chatbot answers: dollar sign, thousands
separators, exactly two decimals. -/
def money (x : Decimal) : String := ("$") ++ fmt2 x

/-- Python comma format with zero decimals, used for quantities. -/
def fmt0 (x : Decimal) : String :=
  (if x.units < 0 then ("-") else ("")) ++ commify x.units.natAbs

/-- ASCII lowercasing, the model of the python lower method. -/
def lowerStr (s : String) : String := String.mk (s.data.map Char.toLower)

/-- Whitespace test used for strip and split. -/
def isWS (c : Char) : Bool := c.isWhitespace

/-- Strip of leading and trailing whitespace, the model of the python strip
method. -/
def stripStr (s : String) : String :=
  String.mk (((s.data.dropWhile isWS).reverse.dropWhile isWS).reverse)

/-- Substring containment: the model of the python in operator on strings and
of the pandas contains check with a plain pattern. -/
def strContains (s pat : String) : Bool := decide (List.IsInfix pat.data s.data)

/-- Word splitting worker. -/
def wordsAux (acc : List Char) : List Char → List String
  | [] => if acc.isEmpty then [] else [String.mk acc.reverse]
  | c :: cs =>
      if isWS c then
        if acc.isEmpty then wordsAux [] cs
        else String.mk acc.reverse :: wordsAux [] cs
      else wordsAux (c :: acc) cs

/-- Whitespace splitting into nonempty words, the model of the python split
with no argument. -/
def pyWords (s : String) : List String := wordsAux [] s.data

/-- First-appearance deduplication worker. -/
def pyUniqueAux {α : Type} [DecidableEq α] (seen : List α) : List α → List α
  | [] => []
  | a :: as => if a ∈ seen then pyUniqueAux seen as else a :: pyUniqueAux (a :: seen) as

/-- First-appearance deduplication: the model of pandas unique and of a python
set built from a list.  The source iterates sets in an unspecified order; this
embedding fixes first-appearance order (see spec section 9). -/
def pyUnique {α : Type} [DecidableEq α] (l : List α) : List α := pyUniqueAux [] l

/-- Code-point lexicographic comparison of character lists, the order python
uses to compare and sort strings. -/
def lexLe : List Char → List Char → Bool
  | [], _ => true
  | _ :: _, [] => false
  | a :: as, b :: bs =>
      if a.toNat < b.toNat then true
      else if b.toNat < a.toNat then false
      else lexLe as bs

/-- Code-point lexicographic order on strings as a relation. -/
def strLeR (s t : String) : Prop := lexLe s.data t.data = true

instance : DecidableRel strLeR := fun s t => inferInstanceAs (Decidable (lexLe s.data t.data = true))

/-- String sorting, the model of the python sorted builtin on strings. -/
def sortStr (l : List String) : List String := List.insertionSort strLeR l

/-- One row of the holdings table.  Name-like cells and numeric cells can both
be missing after the best-effort load. -/
structure HoldingRow where
  ShortName : Option String
  PortfolioName : Option String
  SecName : Option String
  SecurityTypeName : Option String
  CustodianName : Option String
  Qty : Option Decimal
  StartQty : Option Decimal
  Price : Option Decimal
  StartPrice : Option Decimal
  MV_Local : Option Decimal
  MV_Base : Option Decimal
  PL_DTD : Option Decimal
  PL_QTD : Option Decimal
  PL_MTD : Option Decimal
  PL_YTD : Option Decimal
  deriving DecidableEq

/-- One row of the trades table. -/
structure TradeRow where
  PortfolioName : Option String
  CustodianName : Option String
  Counterparty : Option String
  TradeTypeName : Option String
  Quantity : Option Decimal
  Price : Option Decimal
  Principal : Option Decimal
  Interest : Option Decimal
  TotalCash : Option Decimal
  AllocationQTY : Option Decimal
  AllocationPrincipal : Option Decimal
  deriving DecidableEq

/-- The chatbot state: the two dataframes, each possibly None after a failed
load. -/
structure Chatbot where
  holdings_df : Option (List HoldingRow)
  trades_df : Option (List TradeRow)
  deriving DecidableEq

/-- Pandas contains on a lowered name column with na set to False: a missing
cell never matches. -/
def optContains (o : Option String) (pat : String) : Bool :=
  match o with
  | none => false
  | some s => strContains (lowerStr s) pat

/-- Row filter shared by every fund-scoped holdings aggregation:
case-insensitive substring containment of the fund name in ShortName or
PortfolioName. -/
def holdingsFundMask (fund : String) (r : HoldingRow) : Bool :=
  optContains r.ShortName (lowerStr fund) || optContains r.PortfolioName (lowerStr fund)

/-- Row filter shared by every fund-scoped trades aggregation. -/
def tradesFundMask (fund : String) (r : TradeRow) : Bool :=
  optContains r.PortfolioName (lowerStr fund)

/-- All distinct fund identifiers: holdings short names, holdings portfolio
names and trades portfolio names, missing values dropped. -/
def get_all_funds (hs : List HoldingRow) (ts : List TradeRow) : List String :=
  pyUnique ((hs.filterMap (·.ShortName)) ++ (hs.filterMap (·.PortfolioName)) ++ (ts.filterMap (·.PortfolioName)))

/-- Count of holdings rows matching a fund, None when the count is zero. -/
def get_total_holdings_for_fund (hs : List HoldingRow) (fund : String) : Option Nat :=
  let c := (hs.filter (holdingsFundMask fund)).length
  if 0 < c then some c else none

/-- Count of trade rows matching a fund, None when the count is zero. -/
def get_total_trades_for_fund (ts : List TradeRow) (fund : String) : Option Nat :=
  let c := (ts.filter (tradesFundMask fund)).length
  if 0 < c then some c else none

/-- Row count of the holdings table. -/
def get_total_holdings (hs : List HoldingRow) : Nat := hs.length

/-- Row count of the trades table. -/
def get_total_trades (ts : List TradeRow) : Nat := ts.length

/-- Fund-scoped YTD profit and loss: None when the filter selects no row, else
the sum over the selected rows. -/
def get_fund_pnl_ytd (hs : List HoldingRow) (fund : String) : Option Decimal :=
  let f := hs.filter (holdingsFundMask fund)
  if 0 < f.length then some (sumCells (f.map (·.PL_YTD))) else none

/-- Group keys of a groupby on ShortName: distinct non-missing short names in
ascending order, as pandas sorts group keys. -/
def pandasGroupKeys (hs : List HoldingRow) : List String :=
  sortStr (pyUnique (hs.filterMap (·.ShortName)))

/-- Groupby on ShortName followed by a per-group sum of the given column. -/
def groupSum (hs : List HoldingRow) (col : HoldingRow → Option Decimal) : List (String × Decimal) :=
  (pandasGroupKeys hs).map (fun k => (k, sumCells ((hs.filter (fun r => r.ShortName == some k)).map col)))

/-- Descending-by-value order on ranking entries. -/
def valDescR (p q : String × Decimal) : Prop := Decimal.le q.2 p.2 = true

instance : DecidableRel valDescR := fun p q => inferInstanceAs (Decidable (Decimal.le q.2 p.2 = true))

/-- Ascending-by-value order on ranking entries. -/
def valAscR (p q : String × Decimal) : Prop := Decimal.le p.2 q.2 = true

instance : DecidableRel valAscR := fun p q => inferInstanceAs (Decidable (Decimal.le p.2 q.2 = true))

/-- Best performing funds: YTD sums grouped by fund, sorted descending, first n. -/
def get_best_performing_funds (hs : List HoldingRow) (n : Nat) : List (String × Decimal) :=
  (List.insertionSort valDescR (groupSum hs (·.PL_YTD))).take n

/-- Worst performing funds: same grouping sorted ascending, first n. -/
def get_worst_performing_funds (hs : List HoldingRow) (n : Nat) : List (String × Decimal) :=
  (List.insertionSort valAscR (groupSum hs (·.PL_YTD))).take n

/-- Full ranking of funds by YTD sum, descending. -/
def get_fund_performance_ranking (hs : List HoldingRow) : List (String × Decimal) :=
  List.insertionSort valDescR (groupSum hs (·.PL_YTD))

/-- Distinct security names of the rows matching a fund, None when no row
matches.  A missing name stays as a value, as pandas unique keeps NaN. -/
def get_securities_for_fund (hs : List HoldingRow) (fund : String) : Option (List (Option String)) :=
  let f := hs.filter (holdingsFundMask fund)
  if 0 < f.length then some (pyUnique (f.map (·.SecName))) else none

/-- Distinct security type names of the rows matching a fund, None when no row
matches. -/
def get_security_types_for_fund (hs : List HoldingRow) (fund : String) : Option (List (Option String)) :=
  let f := hs.filter (holdingsFundMask fund)
  if 0 < f.length then some (pyUnique (f.map (·.SecurityTypeName))) else none

/-- Descending-by-count order on the trade type summary. -/
def cntDescR (p q : String × Nat) : Prop := q.2 ≤ p.2

instance : DecidableRel cntDescR := fun p q => inferInstanceAs (Decidable (q.2 ≤ p.2))

/-- Counts of trades per trade type, the model of pandas value counts:
missing types dropped, counts descending. -/
def get_trade_types_summary (ts : List TradeRow) : List (String × Nat) :=
  let vals := ts.filterMap (·.TradeTypeName)
  List.insertionSort cntDescR ((pyUnique vals).map (fun v => (v, (vals.filter (fun w => w == v)).length)))

/-- Count of trades whose type equals the given one, case-insensitively; a
missing type never matches. -/
def get_trades_by_type (ts : List TradeRow) (tt : String) : Nat :=
  (ts.filter (fun r =>
    match r.TradeTypeName with
    | none => false
    | some s => lowerStr s == lowerStr tt)).length

/-- Fund-scoped total base market value, None when no row matches. -/
def get_fund_market_value (hs : List HoldingRow) (fund : String) : Option Decimal :=
  let f := hs.filter (holdingsFundMask fund)
  if 0 < f.length then some (sumCells (f.map (·.MV_Base))) else none

/-- Distinct custodians from both tables, missing values dropped. -/
def get_custodians (hs : List HoldingRow) (ts : List TradeRow) : List String :=
  pyUnique ((hs.filterMap (·.CustodianName)) ++ (ts.filterMap (·.CustodianName)))

/-- Distinct counterparties from the trades table, missing values dropped. -/
def get_counterparties (ts : List TradeRow) : List String :=
  pyUnique (ts.filterMap (·.Counterparty))

/-- Distinct security types of the whole holdings table, missing values
dropped. -/
def get_security_types (hs : List HoldingRow) : List String :=
  pyUnique (hs.filterMap (·.SecurityTypeName))

/-- Count of holdings whose security type contains the keyword,
case-insensitively. -/
def get_holdings_by_security_type (hs : List HoldingRow) (sec : String) : Nat :=
  (hs.filter (fun r => optContains r.SecurityTypeName (lowerStr sec))).length

/-- Fund-scoped total quantity, None when no row matches. -/
def get_total_quantity_for_fund (hs : List HoldingRow) (fund : String) : Option Decimal :=
  let f := hs.filter (holdingsFundMask fund)
  if 0 < f.length then some (sumCells (f.map (·.Qty))) else none

/-- Fund-scoped MTD profit and loss, None when no row matches. -/
def get_pnl_mtd (hs : List HoldingRow) (fund : String) : Option Decimal :=
  let f := hs.filter (holdingsFundMask fund)
  if 0 < f.length then some (sumCells (f.map (·.PL_MTD))) else none

/-- Fund-scoped QTD profit and loss, None when no row matches. -/
def get_pnl_qtd (hs : List HoldingRow) (fund : String) : Option Decimal :=
  let f := hs.filter (holdingsFundMask fund)
  if 0 < f.length then some (sumCells (f.map (·.PL_QTD))) else none

/-- Fund name extraction: first known fund whose lowered name occurs in the
lowered question; fallback, first fund one of whose words longer than three
characters occurs. -/
def extract_fund_name (hs : List HoldingRow) (ts : List TradeRow) (question : String) : Option String :=
  let all_funds := get_all_funds hs ts
  let ql := lowerStr question
  match all_funds.find? (fun f => strContains ql (lowerStr f)) with
  | some f => some f
  | none =>
      all_funds.find? (fun f =>
        (pyWords (lowerStr f)).any (fun w => decide (3 < w.length) && strContains ql w))

/-- Containment of any of the phrases. -/
def anyPhrase (ql : String) (ps : List String) : Bool := ps.any (fun p => strContains ql p)

/-- Trigger of the list-funds rule. -/
def listFundsTrigger (ql : String) : Bool :=
  anyPhrase ql ["list all funds", "all funds", "what funds", "which funds are there", "show funds", "available funds"]

/-- Trigger of the holdings-count rule. -/
def holdingsCountTrigger (ql : String) : Bool :=
  (strContains ql ("total") && strContains ql ("holdings")) ||
    (strContains ql ("how many") && strContains ql ("holdings"))

/-- Trigger of the trades-count rule. -/
def tradesCountTrigger (ql : String) : Bool :=
  (strContains ql ("total") && strContains ql ("trades")) ||
    (strContains ql ("how many") && strContains ql ("trades"))

/-- Trigger of the best-performing rule. -/
def bestTrigger (ql : String) : Bool :=
  anyPhrase ql ["best performing", "top performing", "highest profit", "best fund", "top fund", "performed better", "which fund performed"]

/-- Trigger of the worst-performing rule. -/
def worstTrigger (ql : String) : Bool :=
  anyPhrase ql ["worst performing", "lowest profit", "worst fund", "poor performing", "lowest performing"]

/-- Trigger of the performance-ranking rule. -/
def perfTrigger (ql : String) : Bool :=
  anyPhrase ql ["fund performance", "performance ranking", "rank funds", "compare funds"]

/-- Trigger of the YTD profit-and-loss rule. -/
def ytdTrigger (ql : String) : Bool :=
  anyPhrase ql ["ytd", "yearly", "year to date", "annual", "profit and loss", "pnl", "p&l", "profit", "loss"]

/-- Trigger of the MTD rule. -/
def mtdTrigger (ql : String) : Bool :=
  strContains ql ("mtd") || strContains ql ("month to date")

/-- Trigger of the QTD rule. -/
def qtdTrigger (ql : String) : Bool :=
  strContains ql ("qtd") || strContains ql ("quarter to date")

/-- Trigger of the securities rule. -/
def securitiesTrigger (ql : String) : Bool :=
  anyPhrase ql ["securities", "what securities", "which securities", "holdings for"]

/-- Trigger of the security-types rule. -/
def secTypesTrigger (ql : String) : Bool :=
  anyPhrase ql ["security types", "asset types", "type of securities", "types of assets"]

/-- Trigger of the trade-types summary rule. -/
def tradeTypesTrigger (ql : String) : Bool :=
  anyPhrase ql ["trade types", "buy and sell", "buys and sells", "trade summary"]

/-- Trigger of the buy-count rule. -/
def buyTrigger (ql : String) : Bool :=
  strContains ql ("buy") &&
    (strContains ql ("how many") || strContains ql ("number of") || strContains ql ("total"))

/-- Trigger of the sell-count rule. -/
def sellTrigger (ql : String) : Bool :=
  strContains ql ("sell") &&
    (strContains ql ("how many") || strContains ql ("number of") || strContains ql ("total"))

/-- Trigger of the market-value rule. -/
def mvTrigger (ql : String) : Bool :=
  anyPhrase ql ["market value", "total value", "mv", "aum"]

/-- Trigger of the custodian rule. -/
def custodianTrigger (ql : String) : Bool := strContains ql ("custodian")

/-- Trigger of the counterparty rule. -/
def counterpartTrigger (ql : String) : Bool := strContains ql ("counterpart")

/-- Trigger of the security-type keyword rule. -/
def secKeywordTrigger (ql : String) : Bool :=
  anyPhrase ql ["equity", "bond", "option", "assetbacked", "fx forward"]

/-- Trigger of the quantity rule. -/
def qtyTrigger (ql : String) : Bool :=
  strContains ql ("quantity") || strContains ql ("qty")

/-- Trigger of the help rule. -/
def helpTrigger (ql : String) : Bool :=
  anyPhrase ql ["help", "what can you", "commands", "examples"]

/-- The generic sentinel answer. -/
def notFound : String := "Sorry can not find the answer"

/-- The fund-specific sentinel answer, with the extracted name substituted. -/
def fundSentinel (fund : String) : String :=
  ("Sorry can not find the answer for fund \x27") ++ fund ++ ("\x27")

/-- Rendering of a possibly missing cell inside an f-string: NaN prints as
nan. -/
def optRender (o : Option String) : String :=
  match o with
  | none => "nan"
  | some s => s

/-- Dash-prefixed lines joined by newlines. -/
def dashLines (l : List String) : String :=
  String.intercalate ("\n") (l.map (fun f => ("  - ") ++ f))

/-- Numbered ranking lines, one-based, each ending in a newline. -/
def rankingLines (l : List (String × Decimal)) : String :=
  String.join (l.mapIdx (fun i p => ("  ") ++ toString (i + 1) ++ (". ") ++ p.1 ++ (": ") ++ money p.2 ++ ("\n")))

/-- Dash lines with a money value, each ending in a newline. -/
def dashMoneyLines (l : List (String × Decimal)) : String :=
  String.join (l.map (fun p => ("  - ") ++ p.1 ++ (": ") ++ money p.2 ++ ("\n")))

/-- Answer of the list-funds rule. -/
def answerListFunds (hs : List HoldingRow) (ts : List TradeRow) : String :=
  let funds := get_all_funds hs ts
  if funds.isEmpty then notFound
  else ("Available funds/portfolios:\n") ++ dashLines (sortStr funds)

/-- Answer of the holdings-count rule. -/
def answerHoldingsCount (hs : List HoldingRow) (ts : List TradeRow) (question : String) : String :=
  match extract_fund_name hs ts question with
  | some fund =>
      match get_total_holdings_for_fund hs fund with
      | some c => ("Total number of holdings for ") ++ fund ++ (": ") ++ toString c
      | none => fundSentinel fund
  | none => ("Total number of holdings across all funds: ") ++ toString (get_total_holdings hs)

/-- Answer of the trades-count rule. -/
def answerTradesCount (hs : List HoldingRow) (ts : List TradeRow) (question : String) : String :=
  match extract_fund_name hs ts question with
  | some fund =>
      match get_total_trades_for_fund ts fund with
      | some c => ("Total number of trades for ") ++ fund ++ (": ") ++ toString c
      | none => fundSentinel fund
  | none => ("Total number of trades across all funds: ") ++ toString (get_total_trades ts)

/-- Answer of the best-performing rule. -/
def answerBest (hs : List HoldingRow) : String :=
  let top := get_best_performing_funds hs 10
  if top.isEmpty then notFound
  else ("Best performing funds by YTD P&L:\n") ++ rankingLines top

/-- Answer of the worst-performing rule. -/
def answerWorst (hs : List HoldingRow) : String :=
  let l := get_worst_performing_funds hs 10
  if l.isEmpty then notFound
  else ("Worst performing funds by YTD P&L:\n") ++ rankingLines l

/-- Answer of the performance-ranking rule. -/
def answerPerf (hs : List HoldingRow) : String :=
  let l := get_fund_performance_ranking hs
  if l.isEmpty then notFound
  else ("Fund Performance Ranking by YTD P&L:\n") ++ rankingLines l

/-- Answer of the YTD rule. -/
def answerYTD (hs : List HoldingRow) (ts : List TradeRow) (question : String) : String :=
  match extract_fund_name hs ts question with
  | some fund =>
      match get_fund_pnl_ytd hs fund with
      | some pnl => ("YTD P&L for ") ++ fund ++ (": ") ++ money pnl
      | none => fundSentinel fund
  | none =>
      let all := groupSum hs (·.PL_YTD)
      if all.isEmpty then notFound
      else ("YTD P&L for all funds:\n") ++ dashMoneyLines (List.insertionSort valDescR all)

/-- Answer of the MTD rule. -/
def answerMTD (hs : List HoldingRow) (ts : List TradeRow) (question : String) : String :=
  match extract_fund_name hs ts question with
  | some fund =>
      match get_pnl_mtd hs fund with
      | some pnl => ("MTD P&L for ") ++ fund ++ (": ") ++ money pnl
      | none => fundSentinel fund
  | none =>
      let all := groupSum hs (·.PL_MTD)
      if all.isEmpty then notFound
      else ("MTD P&L for all funds:\n") ++ dashMoneyLines (List.insertionSort valDescR all)

/-- Answer of the QTD rule. -/
def answerQTD (hs : List HoldingRow) (ts : List TradeRow) (question : String) : String :=
  match extract_fund_name hs ts question with
  | some fund =>
      match get_pnl_qtd hs fund with
      | some pnl => ("QTD P&L for ") ++ fund ++ (": ") ++ money pnl
      | none => fundSentinel fund
  | none =>
      let all := groupSum hs (·.PL_QTD)
      if all.isEmpty then notFound
      else ("QTD P&L for all funds:\n") ++ dashMoneyLines (List.insertionSort valDescR all)

/-- Answer of the securities rule. -/
def answerSecurities (hs : List HoldingRow) (ts : List TradeRow) (question : String) : String :=
  match extract_fund_name hs ts question with
  | some fund =>
      match get_securities_for_fund hs fund with
      | some secs =>
          if secs.isEmpty then fundSentinel fund
          else ("Securities held by ") ++ fund ++ (":\n") ++ dashLines (secs.map optRender)
      | none => fundSentinel fund
  | none => "Please specify a fund name."

/-- Answer of the security-types rule.  In the fund branch the source joins
raw cell values, so a missing type renders as nan here. -/
def answerSecTypes (hs : List HoldingRow) (ts : List TradeRow) (question : String) : String :=
  match extract_fund_name hs ts question with
  | some fund =>
      match get_security_types_for_fund hs fund with
      | some tys =>
          if tys.isEmpty then fundSentinel fund
          else ("Security types for ") ++ fund ++ (": ") ++ String.intercalate (", ") (tys.map optRender)
      | none => fundSentinel fund
  | none =>
      let tys := get_security_types hs
      if tys.isEmpty then notFound
      else ("Available security types: ") ++ String.intercalate (", ") tys

/-- Answer of the trade-types summary rule. -/
def answerTradeTypes (ts : List TradeRow) : String :=
  let summary := get_trade_types_summary ts
  if summary.isEmpty then notFound
  else ("Trade Types Summary:\n") ++
    String.join (summary.map (fun p => ("  - ") ++ p.1 ++ (": ") ++ toString p.2 ++ ("\n")))

/-- Answer of the buy-count rule. -/
def answerBuy (ts : List TradeRow) : String :=
  let c := get_trades_by_type ts ("buy")
  if 0 < c then ("Total number of Buy trades: ") ++ toString c else notFound

/-- Answer of the sell-count rule. -/
def answerSell (ts : List TradeRow) : String :=
  let c := get_trades_by_type ts ("sell")
  if 0 < c then ("Total number of Sell trades: ") ++ toString c else notFound

/-- Answer of the market-value rule. -/
def answerMV (hs : List HoldingRow) (ts : List TradeRow) (question : String) : String :=
  match extract_fund_name hs ts question with
  | some fund =>
      match get_fund_market_value hs fund with
      | some mv => ("Total market value for ") ++ fund ++ (": ") ++ money mv
      | none => fundSentinel fund
  | none => ("Total market value across all funds: ") ++ money (sumCells (hs.map (·.MV_Base)))

/-- Answer of the custodian rule. -/
def answerCustodians (hs : List HoldingRow) (ts : List TradeRow) : String :=
  let cs := get_custodians hs ts
  if cs.isEmpty then notFound
  else ("Custodians:\n") ++ dashLines (sortStr cs)

/-- Answer of the counterparty rule. -/
def answerCounterparties (ts : List TradeRow) : String :=
  let cs := get_counterparties ts
  if cs.isEmpty then notFound
  else ("Counterparties:\n") ++ dashLines (sortStr cs)

/-- The five literal security type keywords, tested in this fixed order. -/
def secTypeNames : List String := ["Equity", "Bond", "Option", "AssetBacked", "FX Forward"]

/-- Security-type keyword loop: first keyword present in the question with a
nonzero holdings count wins; otherwise fall through to the sentinel. -/
def secTypeLoop (hs : List HoldingRow) (ql : String) : List String → String
  | [] => notFound
  | s :: rest =>
      if strContains ql (lowerStr s) then
        let c := get_holdings_by_security_type hs s
        if 0 < c then ("Number of ") ++ s ++ (" holdings: ") ++ toString c
        else secTypeLoop hs ql rest
      else secTypeLoop hs ql rest

/-- Answer of the security-type keyword rule. -/
def answerSecKeyword (hs : List HoldingRow) (ql : String) : String :=
  secTypeLoop hs ql secTypeNames

/-- Answer of the quantity rule. -/
def answerQty (hs : List HoldingRow) (ts : List TradeRow) (question : String) : String :=
  match extract_fund_name hs ts question with
  | some fund =>
      match get_total_quantity_for_fund hs fund with
      | some q => ("Total quantity for ") ++ fund ++ (": ") ++ fmt0 q
      | none => fundSentinel fund
  | none => "Please specify a fund name for quantity information."

/-- The static help answer. -/
def helpText : String :=
  "I can help you with questions about holdings and trades data. Here are some examples:\n\n📊 Holdings Questions:\n  - \"Total number of holdings for Garfield\"\n  - \"How many holdings are there?\"\n  - \"What securities does Heather hold?\"\n  - \"What are the security types for MNC Inv?\"\n  - \"Number of equity holdings\"\n\n📈 Trades Questions:\n  - \"Total number of trades for HoldCo 1\"\n  - \"How many trades are there?\"\n  - \"Trade types summary\"\n  - \"How many buy trades?\"\n  - \"How many sell trades?\"\n\n💰 Performance Questions:\n  - \"Which funds performed better?\"\n  - \"Best performing funds\"\n  - \"Worst performing funds\"\n  - \"YTD P&L for Ytum\"\n  - \"MTD P&L for all funds\"\n  - \"Fund performance ranking\"\n\n💵 Value Questions:\n  - \"Market value for Garfield\"\n  - \"Total market value\"\n\n🏢 Other Questions:\n  - \"List all funds\"\n  - \"What are the custodians?\"\n  - \"What are the counterparties?\"\n"

/-- Access of both dataframes in source order: holdings first, then trades; a
None dataframe raises. -/
def withTables (bot : Chatbot) (f : List HoldingRow → List TradeRow → String) : Except PyError String :=
  match bot.holdings_df with
  | none => Except.error PyError.noneTypeError
  | some hs =>
      match bot.trades_df with
      | none => Except.error PyError.noneTypeError
      | some ts => Except.ok (f hs ts)

/-- Access of the holdings dataframe only. -/
def withHoldings (bot : Chatbot) (f : List HoldingRow → String) : Except PyError String :=
  match bot.holdings_df with
  | none => Except.error PyError.noneTypeError
  | some hs => Except.ok (f hs)

/-- Access of the trades dataframe only. -/
def withTrades (bot : Chatbot) (f : List TradeRow → String) : Except PyError String :=
  match bot.trades_df with
  | none => Except.error PyError.noneTypeError
  | some ts => Except.ok (f ts)

/-- A handler together with the tables it reads: both tables in source order,
holdings only, trades only, or a static answer reading no table. -/
inductive RuleAction where
  | both (f : List HoldingRow → List TradeRow → String)
  | holdingsOnly (f : List HoldingRow → String)
  | tradesOnly (f : List TradeRow → String)
  | pure (s : String)

/-- Runs a handler against the chatbot state, raising when a dataframe it
reads stayed None. -/
def runRuleAction (bot : Chatbot) : RuleAction → Except PyError String
  | RuleAction.both f => withTables bot f
  | RuleAction.holdingsOnly f => withHoldings bot f
  | RuleAction.tradesOnly f => withTrades bot f
  | RuleAction.pure s => Except.ok s

/-- First-match evaluation of an ordered rule list: the first rule whose
trigger is true runs, later rules are never considered; when nothing matches
the generic sentinel is returned. -/
def firstMatch (bot : Chatbot) : List (Bool × RuleAction) → Except PyError String
  | [] => Except.ok notFound
  | (c, a) :: rest => if c then runRuleAction bot a else firstMatch bot rest

/-- The ordered rule list of the classifier, in source order: each entry is the
evaluated trigger over the lowered stripped question and the handler. -/
def rules (question ql : String) : List (Bool × RuleAction) :=
  [(listFundsTrigger ql, RuleAction.both (fun hs ts => answerListFunds hs ts)),
   (holdingsCountTrigger ql, RuleAction.both (fun hs ts => answerHoldingsCount hs ts question)),
   (tradesCountTrigger ql, RuleAction.both (fun hs ts => answerTradesCount hs ts question)),
   (bestTrigger ql, RuleAction.holdingsOnly answerBest),
   (worstTrigger ql, RuleAction.holdingsOnly answerWorst),
   (perfTrigger ql, RuleAction.holdingsOnly answerPerf),
   (ytdTrigger ql, RuleAction.both (fun hs ts => answerYTD hs ts question)),
   (mtdTrigger ql, RuleAction.both (fun hs ts => answerMTD hs ts question)),
   (qtdTrigger ql, RuleAction.both (fun hs ts => answerQTD hs ts question)),
   (securitiesTrigger ql, RuleAction.both (fun hs ts => answerSecurities hs ts question)),
   (secTypesTrigger ql, RuleAction.both (fun hs ts => answerSecTypes hs ts question)),
   (tradeTypesTrigger ql, RuleAction.tradesOnly answerTradeTypes),
   (buyTrigger ql, RuleAction.tradesOnly answerBuy),
   (sellTrigger ql, RuleAction.tradesOnly answerSell),
   (mvTrigger ql, RuleAction.both (fun hs ts => answerMV hs ts question)),
   (custodianTrigger ql, RuleAction.both (fun hs ts => answerCustodians hs ts)),
   (counterpartTrigger ql, RuleAction.tradesOnly answerCounterparties),
   (secKeywordTrigger ql, RuleAction.holdingsOnly (fun hs => answerSecKeyword hs ql)),
   (qtyTrigger ql, RuleAction.both (fun hs ts => answerQty hs ts question)),
   (helpTrigger ql, RuleAction.pure helpText)]

/-- The question-answering core: lower and strip the question, answer the
fixed prompt when it is empty, else run the first matching rule of the ordered
list against the tables it reads.  The result is an error exactly when the
chosen handler dereferences a dataframe that stayed None after a failed
load. -/
def process_question (bot : Chatbot) (question : String) : Except PyError String :=
  if stripStr (lowerStr question) = ("") then Except.ok ("Please enter a question.")
  else firstMatch bot (rules question (stripStr (lowerStr question)))

/-- A false trigger passes control to the rest of the rule list. -/
theorem firstMatch_cons_false {bot : Chatbot} {c : Bool} {a : RuleAction}
    {rest : List (Bool × RuleAction)} (h : c = false) :
    firstMatch bot ((c, a) :: rest) = firstMatch bot rest := by
  simp [firstMatch, h]

/-- A true trigger runs its handler, ignoring all later rules. -/
theorem firstMatch_cons_true {bot : Chatbot} {c : Bool} {a : RuleAction}
    {rest : List (Bool × RuleAction)} (h : c = true) :
    firstMatch bot ((c, a) :: rest) = runRuleAction bot a := by
  simp [firstMatch, h]

/-- With both tables present no rule list can raise. -/
theorem firstMatch_ok (hs : List HoldingRow) (ts : List TradeRow) :
    ∀ l : List (Bool × RuleAction), ∃ s, firstMatch ⟨some hs, some ts⟩ l = Except.ok s := by
  intro l
  induction l with
  | nil => exact ⟨_, rfl⟩
  | cons p rest ih =>
      obtain ⟨c, a⟩ := p
      cases c
      · rw [firstMatch_cons_false rfl]
        exact ih
      · rw [firstMatch_cons_true rfl]
        cases a
        all_goals exact ⟨_, rfl⟩

/-- One call of process_question at the object level.  The source method only
reads the two dataframe attributes and assigns nothing, so the post-state
equals the pre-state. -/
def processQuestionStep (bot : Chatbot) (question : String) : Except PyError String × Chatbot :=
  (process_question bot question, bot)

instance {ε α : Type} [DecidableEq ε] [DecidableEq α] : DecidableEq (Except ε α) := fun a b =>
  match a, b with
  | Except.error x, Except.error y =>
      if h : x = y then isTrue (congrArg Except.error h)
      else isFalse (fun hh => h (Except.error.inj hh))
  | Except.ok x, Except.ok y =>
      if h : x = y then isTrue (congrArg Except.ok h)
      else isFalse (fun hh => h (Except.ok.inj hh))
  | Except.error _, Except.ok _ => isFalse (fun hh => Except.noConfusion hh)
  | Except.ok _, Except.error _ => isFalse (fun hh => Except.noConfusion hh)

/-- A trigger that is false on the empty string forces a nonempty question. -/
theorem ne_empty_of_true (f : String → Bool) (h0 : f ("") = false) {s : String}
    (h : f s = true) : s ≠ ("") := by
  intro he
  rw [he, h0] at h
  exact Bool.noConfusion h

/-- Membership in the deduplication worker. -/
theorem mem_pyUniqueAux {α : Type} [DecidableEq α] (l : List α) (seen : List α) (a : α) :
    a ∈ pyUniqueAux seen l ↔ a ∈ l ∧ a ∉ seen := by
  induction l generalizing seen with
  | nil => simp [pyUniqueAux]
  | cons b bs ih =>
      simp only [pyUniqueAux]
      by_cases hb : b ∈ seen
      · rw [if_pos hb, ih]
        constructor
        · rintro ⟨h1, h2⟩
          exact ⟨List.mem_cons_of_mem _ h1, h2⟩
        · rintro ⟨h1, h2⟩
          rcases List.mem_cons.mp h1 with rfl | h1
          · exact absurd hb h2
          · exact ⟨h1, h2⟩
      · rw [if_neg hb]
        simp only [List.mem_cons, ih, List.mem_cons, not_or]
        constructor
        · rintro (rfl | ⟨h1, h2⟩)
          · exact ⟨Or.inl rfl, hb⟩
          · exact ⟨Or.inr h1, h2.2⟩
        · rintro ⟨h1 | h1, h2⟩
          · exact Or.inl h1
          · by_cases hab : a = b
            · exact Or.inl hab
            · exact Or.inr ⟨h1, hab, h2⟩

/-- The deduplication worker never repeats an element. -/
theorem nodup_pyUniqueAux {α : Type} [DecidableEq α] (l : List α) (seen : List α) :
    (pyUniqueAux seen l).Nodup := by
  induction l generalizing seen with
  | nil => simp [pyUniqueAux]
  | cons b bs ih =>
      simp only [pyUniqueAux]
      by_cases hb : b ∈ seen
      · rw [if_pos hb]; exact ih seen
      · rw [if_neg hb]
        refine List.nodup_cons.mpr ⟨?_, ih (b :: seen)⟩
        intro hmem
        exact ((mem_pyUniqueAux bs (b :: seen) b).mp hmem).2 (List.mem_cons_self b _)

/-- Membership in the deduplicated list is membership in the original one. -/
theorem mem_pyUnique {α : Type} [DecidableEq α] (l : List α) (a : α) :
    a ∈ pyUnique l ↔ a ∈ l := by
  rw [pyUnique, mem_pyUniqueAux]
  simp

/-- The deduplicated list never repeats an element. -/
theorem nodup_pyUnique {α : Type} [DecidableEq α] (l : List α) : (pyUnique l).Nodup :=
  nodup_pyUniqueAux l []

/-- The lexicographic comparison is total. -/
theorem lexLe_total : ∀ l₁ l₂ : List Char, lexLe l₁ l₂ = true ∨ lexLe l₂ l₁ = true := by
  intro l₁
  induction l₁ with
  | nil => intro l₂; left; rfl
  | cons a as ih =>
      intro l₂
      cases l₂ with
      | nil => right; rfl
      | cons b bs =>
          simp only [lexLe]
          rcases Nat.lt_trichotomy a.toNat b.toNat with h | h | h
          · left; simp [h]
          · have h1 : ¬ a.toNat < b.toNat := by omega
            have h2 : ¬ b.toNat < a.toNat := by omega
            simp only [if_neg h1, if_neg h2]
            exact ih bs
          · right; simp [h]

/-- The lexicographic comparison is transitive. -/
theorem lexLe_trans : ∀ l₁ l₂ l₃ : List Char,
    lexLe l₁ l₂ = true → lexLe l₂ l₃ = true → lexLe l₁ l₃ = true := by
  intro l₁
  induction l₁ with
  | nil => intro l₂ l₃ _ _; rfl
  | cons a as ih =>
      intro l₂ l₃ h12 h23
      cases l₂ with
      | nil => simp [lexLe] at h12
      | cons b bs =>
          cases l₃ with
          | nil => simp [lexLe] at h23
          | cons c cs =>
              simp only [lexLe] at h12 h23 ⊢
              by_cases hab : a.toNat < b.toNat
              · by_cases hbc : b.toNat < c.toNat
                · simp [Nat.lt_trans hab hbc]
                · rw [if_neg hbc] at h23
                  by_cases hcb : c.toNat < b.toNat
                  · rw [if_pos hcb] at h23; exact absurd h23 (by simp)
                  · have : a.toNat < c.toNat := by omega
                    simp [this]
              · rw [if_neg hab] at h12
                by_cases hba : b.toNat < a.toNat
                · rw [if_pos hba] at h12; exact absurd h12 (by simp)
                · rw [if_neg hba] at h12
                  by_cases hbc : b.toNat < c.toNat
                  · have : a.toNat < c.toNat := by omega
                    simp [this]
                  · rw [if_neg hbc] at h23
                    by_cases hcb : c.toNat < b.toNat
                    · rw [if_pos hcb] at h23; exact absurd h23 (by simp)
                    · rw [if_neg hcb] at h23
                      have hac : ¬ a.toNat < c.toNat := by omega
                      have hca : ¬ c.toNat < a.toNat := by omega
                      rw [if_neg hac, if_neg hca]
                      exact ih bs cs h12 h23

instance : IsTotal String strLeR := ⟨fun s t => lexLe_total s.data t.data⟩

instance : IsTrans String strLeR := ⟨fun a b c => lexLe_trans a.data b.data c.data⟩

/-- The two sentinels are distinct strings whatever the fund name. -/
theorem fundSentinel_ne_notFound (fund : String) : fundSentinel fund ≠ notFound := by
  intro h
  have hlen := congrArg String.length h
  rw [fundSentinel, notFound] at hlen
  rw [String.length_append, String.length_append] at hlen
  have l1 : ("Sorry can not find the answer for fund \x27").length = 40 := by decide
  have l2 : ("\x27").length = 1 := by decide
  have l3 : ("Sorry can not find the answer").length = 29 := by decide
  omega

/-- Rounding characterisation: any integer strictly within half a unit of one
hundred times the value is the cent count. -/
theorem Decimal.cents_unique (x : Decimal) (c : Int)
    (h1 : 2 * c * x.den - x.den < 2 * (100 * x.num))
    (h2 : 2 * (100 * x.num) < 2 * c * x.den + x.den) :
    x.cents = c := by
  have hd : (0 : ℤ) < x.den := by
    have h10 : (0:ℤ) < (10:ℤ) ^ x.exp := pow_pos (by norm_num) x.exp
    simp only [Decimal.den]
    exact h10
  have he : x.den * (100 * x.num / x.den) + 100 * x.num % x.den = 100 * x.num :=
    Int.ediv_add_emod _ _
  have hr0 : 0 ≤ 100 * x.num % x.den := Int.emod_nonneg _ (ne_of_gt hd)
  have hr1 : 100 * x.num % x.den < x.den := Int.emod_lt_of_pos _ hd
  simp only [Decimal.cents]
  split
  · rename_i hlt
    have e1 : (2 * x.den) * (c - 100 * x.num / x.den) < (2 * x.den) * 1 := by nlinarith [he]
    have e2 : (2 * x.den) * (100 * x.num / x.den - c) < (2 * x.den) * 1 := by nlinarith [he]
    have f1 := lt_of_mul_lt_mul_left e1 (by positivity)
    have f2 := lt_of_mul_lt_mul_left e2 (by positivity)
    omega
  · split
    · rename_i hge hlt
      have e1 : (2 * x.den) * (c - 100 * x.num / x.den) < (2 * x.den) * 2 := by nlinarith [he]
      have e2 : (2 * x.den) * (100 * x.num / x.den - c) < (2 * x.den) * 0 := by nlinarith [he]
      have f1 := lt_of_mul_lt_mul_left e1 (by positivity)
      have f2 := lt_of_mul_lt_mul_left e2 (by positivity)
      omega
    · rename_i hge hle
      have htie : 2 * (100 * x.num % x.den) = x.den := by omega
      have e1 : (2 * x.den) * (c - 100 * x.num / x.den) < (2 * x.den) * 1 := by nlinarith [he]
      have e2 : (2 * x.den) * (100 * x.num / x.den - c) < (2 * x.den) * 0 := by nlinarith [he]
      have f1 := lt_of_mul_lt_mul_left e1 (by positivity)
      have f2 := lt_of_mul_lt_mul_left e2 (by positivity)
      omega

/-- C8: the empty question is answered by the fixed prompt before any rule runs
and without touching either table; the quantification over possibly absent
tables shows no dataframe is dereferenced. -/
theorem C8_empty_question (h : Option (List HoldingRow)) (t : Option (List TradeRow)) :
    process_question ⟨h, t⟩ ("") = Except.ok ("Please enter a question.") := rfl

/-- C1: with both dataframes absent after a failed load, the list-funds
question raises the NoneType error instead of returning the sentinel; with
both tables present but empty, every question still gets an answer. -/
theorem C1_absent_tables_raise :
    process_question ⟨none, none⟩ ("list all funds") = Except.error PyError.noneTypeError ∧
    ∀ question : String, ∃ answer : String,
      process_question ⟨some [], some []⟩ question = Except.ok answer := by
  constructor
  · decide
  · intro question
    unfold process_question
    by_cases hq : stripStr (lowerStr question) = ("")
    · rw [if_pos hq]
      exact ⟨_, rfl⟩
    · rw [if_neg hq]
      exact firstMatch_ok [] [] _

/-- C6: a call of process_question leaves the chatbot state unchanged, a second
identical call returns the same answer, and the answer only depends on the two
tables. -/
theorem C6_idempotent_no_mutation (bot : Chatbot) (question : String) :
    (processQuestionStep bot question).2 = bot ∧
    (processQuestionStep ((processQuestionStep bot question).2) question).1 =
      (processQuestionStep bot question).1 ∧
    ∀ bot' : Chatbot, bot'.holdings_df = bot.holdings_df → bot'.trades_df = bot.trades_df →
      process_question bot' question = process_question bot question := by
  refine ⟨rfl, rfl, ?_⟩
  intro bot' h1 h2
  cases bot
  cases bot'
  dsimp only at h1 h2
  subst h1
  subst h2
  rfl

/-- C6 witness: the state is returned unchanged and a chatbot rebuilt from the
same two tables answers identically, at a concrete state and question. -/
theorem C6_witness :
    (processQuestionStep ⟨some [], some []⟩ ("help")).2 = (⟨some [], some []⟩ : Chatbot) ∧
    process_question ⟨some [], some []⟩ ("help") = process_question ⟨some [], some []⟩ ("help") := by
  refine ⟨(C6_idempotent_no_mutation ⟨some [], some []⟩ ("help")).1, ?_⟩
  exact (C6_idempotent_no_mutation ⟨some [], some []⟩ ("help")).2.2 ⟨some [], some []⟩ rfl rfl

/-- Trades table used for the C2 and C3 evaluations. -/
def C2trades : List TradeRow :=
  [⟨some ("Alpha"), none, none, some ("Buy"), none, none, none, none, none, none, none⟩]

/-- C2 counterexample: a question containing total, trades and the YTD trigger
pnl, but also the list-funds phrase all funds, is answered by the list-funds
rule, not by the trades-count handler. -/
theorem C2_counterexample :
    process_question ⟨some [], some C2trades⟩ ("total trades pnl for all funds") =
      Except.ok ("Available funds/portfolios:\n  - Alpha") ∧
    process_question ⟨some [], some C2trades⟩ ("total trades pnl for all funds") ≠
      Except.ok (answerTradesCount [] C2trades ("total trades pnl for all funds")) := by
  constructor
  · decide
  · decide

/-- C2 amended: when no earlier rule fires (no list-funds phrase, no
holdings-count trigger), a question containing total and trades together with a
YTD trigger resolves to the trades-count handler, never the P&L handler. -/
theorem C2_total_trades_priority (hs : List HoldingRow) (ts : List TradeRow) (q : String)
    (h1 : listFundsTrigger (stripStr (lowerStr q)) = false)
    (h2 : holdingsCountTrigger (stripStr (lowerStr q)) = false)
    (h3 : strContains (stripStr (lowerStr q)) ("total") = true)
    (h4 : strContains (stripStr (lowerStr q)) ("trades") = true)
    (_h5 : ytdTrigger (stripStr (lowerStr q)) = true) :
    process_question ⟨some hs, some ts⟩ q = Except.ok (answerTradesCount hs ts q) := by
  have hne : stripStr (lowerStr q) ≠ ("") :=
    ne_empty_of_true (fun s => strContains s ("total")) (by decide) h3
  have htc : tradesCountTrigger (stripStr (lowerStr q)) = true := by
    simp [tradesCountTrigger, h3, h4]
  unfold process_question rules
  rw [if_neg hne, firstMatch_cons_false h1, firstMatch_cons_false h2, firstMatch_cons_true htc]
  rfl

/-- C2 witness: a concrete total-trades-pnl question with no earlier trigger is
answered by the trades-count handler. -/
theorem C2_priority_witness :
    process_question ⟨some [], some C2trades⟩ ("total trades pnl") =
      Except.ok (answerTradesCount [] C2trades ("total trades pnl")) :=
  C2_total_trades_priority [] C2trades ("total trades pnl")
    (by decide) (by decide) (by decide) (by decide) (by decide)

/-- Trades table with exactly five buy rows and no portfolio names. -/
def C3trades : List TradeRow :=
  List.replicate 5 ⟨none, none, none, some ("Buy"), none, none, none, none, none, none, none⟩

/-- C3 counterexample: the question about buy trades is captured by the
trades-count rule, which fires on how many plus trades before the buy rule is
reached, so the claimed buy-count answer is not returned. -/
theorem C3_counterexample :
    process_question ⟨some [], some C3trades⟩ ("How many buy trades?") =
      Except.ok ("Total number of trades across all funds: 5") ∧
    process_question ⟨some [], some C3trades⟩ ("How many buy trades?") ≠
      Except.ok ("Total number of Buy trades: 5") := by
  constructor
  · decide
  · decide

/-- C3 amended: for the buy-trades question against a five-row all-buy trade
table with no extractable fund, the trades-count rule fires first on how many
plus trades, so the answer is the all-funds trade count, not the buy count. -/
theorem C3_trades_rule_shadows_buy_rule (hs : List HoldingRow) (ts : List TradeRow)
    (hlen : ts.length = 5) (_hbuy : get_trades_by_type ts ("buy") = 5)
    (hex : extract_fund_name hs ts ("How many buy trades?") = none) :
    process_question ⟨some hs, some ts⟩ ("How many buy trades?") =
      Except.ok ("Total number of trades across all funds: 5") := by
  unfold process_question rules
  rw [if_neg (by decide), firstMatch_cons_false (by decide), firstMatch_cons_false (by decide),
    firstMatch_cons_true (by decide)]
  show Except.ok (answerTradesCount hs ts ("How many buy trades?")) = _
  unfold answerTradesCount
  rw [hex]
  simp only [get_total_trades, hlen]
  decide

/-- C3 witness: the amended statement at a concrete five-buy-row table. -/
theorem C3_witness :
    process_question ⟨some [], some C3trades⟩ ("How many buy trades?") =
      Except.ok ("Total number of trades across all funds: 5") :=
  C3_trades_rule_shadows_buy_rule [] C3trades (by decide) (by decide) (by decide)

/-- C4: across every fund-scoped rule, an extracted fund whose filter selects
zero rows in the relevant table is answered with the fund-specific sentinel,
which is never the generic sentinel. -/
theorem C4_fund_sentinel (hs : List HoldingRow) (ts : List TradeRow) (q ql fund : String)
    (hql : stripStr (lowerStr q) = ql)
    (hex : extract_fund_name hs ts q = some fund) :
    (listFundsTrigger ql = false ∧ holdingsCountTrigger ql = true ∧
        (hs.filter (holdingsFundMask fund)).length = 0 →
      process_question ⟨some hs, some ts⟩ q = Except.ok (fundSentinel fund)) ∧
    (listFundsTrigger ql = false ∧ holdingsCountTrigger ql = false ∧
        tradesCountTrigger ql = true ∧ (ts.filter (tradesFundMask fund)).length = 0 →
      process_question ⟨some hs, some ts⟩ q = Except.ok (fundSentinel fund)) ∧
    (listFundsTrigger ql = false ∧ holdingsCountTrigger ql = false ∧
        tradesCountTrigger ql = false ∧ bestTrigger ql = false ∧ worstTrigger ql = false ∧
        perfTrigger ql = false ∧ ytdTrigger ql = true ∧
        (hs.filter (holdingsFundMask fund)).length = 0 →
      process_question ⟨some hs, some ts⟩ q = Except.ok (fundSentinel fund)) ∧
    (listFundsTrigger ql = false ∧ holdingsCountTrigger ql = false ∧
        tradesCountTrigger ql = false ∧ bestTrigger ql = false ∧ worstTrigger ql = false ∧
        perfTrigger ql = false ∧ ytdTrigger ql = false ∧ mtdTrigger ql = true ∧
        (hs.filter (holdingsFundMask fund)).length = 0 →
      process_question ⟨some hs, some ts⟩ q = Except.ok (fundSentinel fund)) ∧
    (listFundsTrigger ql = false ∧ holdingsCountTrigger ql = false ∧
        tradesCountTrigger ql = false ∧ bestTrigger ql = false ∧ worstTrigger ql = false ∧
        perfTrigger ql = false ∧ ytdTrigger ql = false ∧ mtdTrigger ql = false ∧
        qtdTrigger ql = true ∧ (hs.filter (holdingsFundMask fund)).length = 0 →
      process_question ⟨some hs, some ts⟩ q = Except.ok (fundSentinel fund)) ∧
    (listFundsTrigger ql = false ∧ holdingsCountTrigger ql = false ∧
        tradesCountTrigger ql = false ∧ bestTrigger ql = false ∧ worstTrigger ql = false ∧
        perfTrigger ql = false ∧ ytdTrigger ql = false ∧ mtdTrigger ql = false ∧
        qtdTrigger ql = false ∧ securitiesTrigger ql = true ∧
        (hs.filter (holdingsFundMask fund)).length = 0 →
      process_question ⟨some hs, some ts⟩ q = Except.ok (fundSentinel fund)) ∧
    (listFundsTrigger ql = false ∧ holdingsCountTrigger ql = false ∧
        tradesCountTrigger ql = false ∧ bestTrigger ql = false ∧ worstTrigger ql = false ∧
        perfTrigger ql = false ∧ ytdTrigger ql = false ∧ mtdTrigger ql = false ∧
        qtdTrigger ql = false ∧ securitiesTrigger ql = false ∧ secTypesTrigger ql = true ∧
        (hs.filter (holdingsFundMask fund)).length = 0 →
      process_question ⟨some hs, some ts⟩ q = Except.ok (fundSentinel fund)) ∧
    (listFundsTrigger ql = false ∧ holdingsCountTrigger ql = false ∧
        tradesCountTrigger ql = false ∧ bestTrigger ql = false ∧ worstTrigger ql = false ∧
        perfTrigger ql = false ∧ ytdTrigger ql = false ∧ mtdTrigger ql = false ∧
        qtdTrigger ql = false ∧ securitiesTrigger ql = false ∧ secTypesTrigger ql = false ∧
        tradeTypesTrigger ql = false ∧ buyTrigger ql = false ∧ sellTrigger ql = false ∧
        mvTrigger ql = true ∧ (hs.filter (holdingsFundMask fund)).length = 0 →
      process_question ⟨some hs, some ts⟩ q = Except.ok (fundSentinel fund)) ∧
    (listFundsTrigger ql = false ∧ holdingsCountTrigger ql = false ∧
        tradesCountTrigger ql = false ∧ bestTrigger ql = false ∧ worstTrigger ql = false ∧
        perfTrigger ql = false ∧ ytdTrigger ql = false ∧ mtdTrigger ql = false ∧
        qtdTrigger ql = false ∧ securitiesTrigger ql = false ∧ secTypesTrigger ql = false ∧
        tradeTypesTrigger ql = false ∧ buyTrigger ql = false ∧ sellTrigger ql = false ∧
        mvTrigger ql = false ∧ custodianTrigger ql = false ∧ counterpartTrigger ql = false ∧
        secKeywordTrigger ql = false ∧ qtyTrigger ql = true ∧
        (hs.filter (holdingsFundMask fund)).length = 0 →
      process_question ⟨some hs, some ts⟩ q = Except.ok (fundSentinel fund)) ∧
    fundSentinel fund ≠ notFound := by
  subst hql
  refine ⟨?_, ?_, ?_, ?_, ?_, ?_, ?_, ?_, ?_, fundSentinel_ne_notFound fund⟩
  · rintro ⟨g1, g2, hz⟩
    have hne := ne_empty_of_true holdingsCountTrigger (by decide) g2
    unfold process_question rules
    rw [if_neg hne, firstMatch_cons_false g1, firstMatch_cons_true g2]
    show Except.ok (answerHoldingsCount hs ts q) = _
    unfold answerHoldingsCount
    rw [hex]
    simp [get_total_holdings_for_fund, hz]
  · rintro ⟨g1, g2, g3, hz⟩
    have hne := ne_empty_of_true tradesCountTrigger (by decide) g3
    unfold process_question rules
    rw [if_neg hne, firstMatch_cons_false g1, firstMatch_cons_false g2, firstMatch_cons_true g3]
    show Except.ok (answerTradesCount hs ts q) = _
    unfold answerTradesCount
    rw [hex]
    simp [get_total_trades_for_fund, hz]
  · rintro ⟨g1, g2, g3, g4, g5, g6, g7, hz⟩
    have hne := ne_empty_of_true ytdTrigger (by decide) g7
    unfold process_question rules
    rw [if_neg hne, firstMatch_cons_false g1, firstMatch_cons_false g2, firstMatch_cons_false g3,
      firstMatch_cons_false g4, firstMatch_cons_false g5, firstMatch_cons_false g6,
      firstMatch_cons_true g7]
    show Except.ok (answerYTD hs ts q) = _
    unfold answerYTD
    rw [hex]
    simp [get_fund_pnl_ytd, hz]
  · rintro ⟨g1, g2, g3, g4, g5, g6, g7, g8, hz⟩
    have hne := ne_empty_of_true mtdTrigger (by decide) g8
    unfold process_question rules
    rw [if_neg hne, firstMatch_cons_false g1, firstMatch_cons_false g2, firstMatch_cons_false g3,
      firstMatch_cons_false g4, firstMatch_cons_false g5, firstMatch_cons_false g6,
      firstMatch_cons_false g7, firstMatch_cons_true g8]
    show Except.ok (answerMTD hs ts q) = _
    unfold answerMTD
    rw [hex]
    simp [get_pnl_mtd, hz]
  · rintro ⟨g1, g2, g3, g4, g5, g6, g7, g8, g9, hz⟩
    have hne := ne_empty_of_true qtdTrigger (by decide) g9
    unfold process_question rules
    rw [if_neg hne, firstMatch_cons_false g1, firstMatch_cons_false g2, firstMatch_cons_false g3,
      firstMatch_cons_false g4, firstMatch_cons_false g5, firstMatch_cons_false g6,
      firstMatch_cons_false g7, firstMatch_cons_false g8, firstMatch_cons_true g9]
    show Except.ok (answerQTD hs ts q) = _
    unfold answerQTD
    rw [hex]
    simp [get_pnl_qtd, hz]
  · rintro ⟨g1, g2, g3, g4, g5, g6, g7, g8, g9, g10, hz⟩
    have hne := ne_empty_of_true securitiesTrigger (by decide) g10
    unfold process_question rules
    rw [if_neg hne, firstMatch_cons_false g1, firstMatch_cons_false g2, firstMatch_cons_false g3,
      firstMatch_cons_false g4, firstMatch_cons_false g5, firstMatch_cons_false g6,
      firstMatch_cons_false g7, firstMatch_cons_false g8, firstMatch_cons_false g9,
      firstMatch_cons_true g10]
    show Except.ok (answerSecurities hs ts q) = _
    unfold answerSecurities
    rw [hex]
    simp [get_securities_for_fund, hz]
  · rintro ⟨g1, g2, g3, g4, g5, g6, g7, g8, g9, g10, g11, hz⟩
    have hne := ne_empty_of_true secTypesTrigger (by decide) g11
    unfold process_question rules
    rw [if_neg hne, firstMatch_cons_false g1, firstMatch_cons_false g2, firstMatch_cons_false g3,
      firstMatch_cons_false g4, firstMatch_cons_false g5, firstMatch_cons_false g6,
      firstMatch_cons_false g7, firstMatch_cons_false g8, firstMatch_cons_false g9,
      firstMatch_cons_false g10, firstMatch_cons_true g11]
    show Except.ok (answerSecTypes hs ts q) = _
    unfold answerSecTypes
    rw [hex]
    simp [get_security_types_for_fund, hz]
  · rintro ⟨g1, g2, g3, g4, g5, g6, g7, g8, g9, g10, g11, g12, g13, g14, g15, hz⟩
    have hne := ne_empty_of_true mvTrigger (by decide) g15
    unfold process_question rules
    rw [if_neg hne, firstMatch_cons_false g1, firstMatch_cons_false g2, firstMatch_cons_false g3,
      firstMatch_cons_false g4, firstMatch_cons_false g5, firstMatch_cons_false g6,
      firstMatch_cons_false g7, firstMatch_cons_false g8, firstMatch_cons_false g9,
      firstMatch_cons_false g10, firstMatch_cons_false g11, firstMatch_cons_false g12,
      firstMatch_cons_false g13, firstMatch_cons_false g14, firstMatch_cons_true g15]
    show Except.ok (answerMV hs ts q) = _
    unfold answerMV
    rw [hex]
    simp [get_fund_market_value, hz]
  · rintro ⟨g1, g2, g3, g4, g5, g6, g7, g8, g9, g10, g11, g12, g13, g14, g15, g16, g17, g18, g19, hz⟩
    have hne := ne_empty_of_true qtyTrigger (by decide) g19
    unfold process_question rules
    rw [if_neg hne, firstMatch_cons_false g1, firstMatch_cons_false g2, firstMatch_cons_false g3,
      firstMatch_cons_false g4, firstMatch_cons_false g5, firstMatch_cons_false g6,
      firstMatch_cons_false g7, firstMatch_cons_false g8, firstMatch_cons_false g9,
      firstMatch_cons_false g10, firstMatch_cons_false g11, firstMatch_cons_false g12,
      firstMatch_cons_false g13, firstMatch_cons_false g14, firstMatch_cons_false g15,
      firstMatch_cons_false g16, firstMatch_cons_false g17, firstMatch_cons_false g18,
      firstMatch_cons_true g19]
    show Except.ok (answerQty hs ts q) = _
    unfold answerQty
    rw [hex]
    simp [get_total_quantity_for_fund, hz]

/-- Trade row whose portfolio is the fund Zebra, used for the C4 witness. -/
def C4trade : TradeRow :=
  ⟨some ("Zebra"), none, none, none, none, none, none, none, none, none, none⟩

/-- Holding row whose short name is the fund Zebra, used for the C4 witness. -/
def C4hold : HoldingRow :=
  ⟨some ("Zebra"), none, none, none, none, none, none, none, none, none, none, none, none, none, none⟩

/-- C4 witness: the holdings-count, trades-count and YTD rules answer with the
fund sentinel at concrete states where the extracted fund matches no row of
the relevant table. -/
theorem C4_witness :
    process_question ⟨some [], some [C4trade]⟩ ("total holdings for zebra") =
      Except.ok (fundSentinel ("Zebra")) ∧
    process_question ⟨some [C4hold], some []⟩ ("total trades for zebra") =
      Except.ok (fundSentinel ("Zebra")) ∧
    process_question ⟨some [], some [C4trade]⟩ ("pnl for zebra") =
      Except.ok (fundSentinel ("Zebra")) := by
  refine ⟨?_, ?_, ?_⟩
  · exact (C4_fund_sentinel [] [C4trade] ("total holdings for zebra") _ ("Zebra") rfl
      (by decide)).1 ⟨by decide, by decide, by decide⟩
  · exact (C4_fund_sentinel [C4hold] [] ("total trades for zebra") _ ("Zebra") rfl
      (by decide)).2.1 ⟨by decide, by decide, by decide, by decide⟩
  · exact (C4_fund_sentinel [] [C4trade] ("pnl for zebra") _ ("Zebra") rfl
      (by decide)).2.2.1 ⟨by decide, by decide, by decide, by decide, by decide, by decide,
        by decide, by decide⟩

/-- C5: when the list-funds rule fires and at least one fund identifier exists,
the answer renders the sorted fund list with dash prefixes, and that list holds
every distinct fund identifier derivable from the three name columns exactly
once, in sorted order. -/
theorem C5_list_funds (hs : List HoldingRow) (ts : List TradeRow) (q : String)
    (htrig : listFundsTrigger (stripStr (lowerStr q)) = true)
    (hfunds : get_all_funds hs ts ≠ []) :
    process_question ⟨some hs, some ts⟩ q =
      Except.ok (("Available funds/portfolios:\n") ++ dashLines (sortStr (get_all_funds hs ts))) ∧
    (sortStr (get_all_funds hs ts)).Nodup ∧
    List.Sorted strLeR (sortStr (get_all_funds hs ts)) ∧
    ∀ f : String, f ∈ sortStr (get_all_funds hs ts) ↔
      (f ∈ hs.filterMap (·.ShortName) ∨ f ∈ hs.filterMap (·.PortfolioName) ∨
        f ∈ ts.filterMap (·.PortfolioName)) := by
  have hne := ne_empty_of_true listFundsTrigger (by decide) htrig
  refine ⟨?_, ?_, ?_, ?_⟩
  · unfold process_question rules
    rw [if_neg hne, firstMatch_cons_true htrig]
    show Except.ok (answerListFunds hs ts) = _
    unfold answerListFunds
    rw [if_neg (by simp [List.isEmpty_iff, hfunds])]
  · exact ((List.perm_insertionSort strLeR _).nodup_iff).mpr (nodup_pyUnique _)
  · exact List.sorted_insertionSort strLeR _
  · intro f
    unfold sortStr get_all_funds
    rw [List.Perm.mem_iff (List.perm_insertionSort strLeR _), mem_pyUnique]
    simp [List.mem_append, or_assoc]

/-- Holding row of the fund Beta, used for the C5 witness. -/
def C5hold : HoldingRow :=
  ⟨some ("Beta"), none, none, none, none, none, none, none, none, none, none, none, none, none, none⟩

/-- Trade row of the fund Alpha, used for the C5 witness. -/
def C5trade : TradeRow :=
  ⟨some ("Alpha"), none, none, none, none, none, none, none, none, none, none⟩

/-- C5 witness: with funds Alpha and Beta the list-funds question answers with
both, sorted and dash-prefixed, and the sorted list repeats nothing. -/
theorem C5_witness :
    process_question ⟨some [C5hold], some [C5trade]⟩ ("List all funds") =
      Except.ok ("Available funds/portfolios:\n  - Alpha\n  - Beta") ∧
    (sortStr (get_all_funds [C5hold] [C5trade])).Nodup := by
  have h := C5_list_funds [C5hold] [C5trade] ("List all funds") (by decide) (by decide)
  exact ⟨h.1.trans (by decide), h.2.1⟩

/-- C7: a fund-scoped YTD sum whose exact value is 1234567.891 renders with a
dollar sign, comma separators and exactly two decimals, as $1,234,567.89. -/
theorem C7_money_format (hs : List HoldingRow) (ts : List TradeRow) (q ql fund : String)
    (hql : stripStr (lowerStr q) = ql)
    (g1 : listFundsTrigger ql = false) (g2 : holdingsCountTrigger ql = false)
    (g3 : tradesCountTrigger ql = false) (g4 : bestTrigger ql = false)
    (g5 : worstTrigger ql = false) (g6 : perfTrigger ql = false)
    (g7 : ytdTrigger ql = true)
    (hex : extract_fund_name hs ts q = some fund)
    (hrows : (hs.filter (holdingsFundMask fund)).length ≠ 0)
    (hval : (sumCells ((hs.filter (holdingsFundMask fund)).map (·.PL_YTD))).toRat =
      1234567891 / 1000) :
    process_question ⟨some hs, some ts⟩ q =
      Except.ok (("YTD P&L for ") ++ fund ++ (": ") ++ ("$1,234,567.89")) := by
  subst hql
  have hne := ne_empty_of_true ytdTrigger (by decide) g7
  have hmoney : money (sumCells ((hs.filter (holdingsFundMask fund)).map (·.PL_YTD))) =
      ("$1,234,567.89") := by
    set x := sumCells ((hs.filter (holdingsFundMask fund)).map (·.PL_YTD)) with hx
    have hD : (0:ℤ) < x.den := by
      have h10 : (0:ℤ) < (10:ℤ) ^ x.exp := pow_pos (by norm_num) x.exp
      simp only [Decimal.den]
      exact h10
    have hm : x.num * 1000 = 1234567891 * x.den := by
      rw [Decimal.toRat] at hval
      have h10 : ((10:ℚ)) ^ x.exp ≠ 0 := by positivity
      field_simp at hval
      have hcast : ((x.num * 1000 : ℤ) : ℚ) = ((1234567891 * x.den : ℤ) : ℚ) := by
        push_cast [Decimal.den]
        linarith [hval]
      exact_mod_cast hcast
    have hc : x.cents = 123456789 :=
      Decimal.cents_unique x 123456789 (by omega) (by omega)
    unfold money fmt2
    rw [hc]
    decide
  unfold process_question rules
  rw [if_neg hne, firstMatch_cons_false g1, firstMatch_cons_false g2, firstMatch_cons_false g3,
    firstMatch_cons_false g4, firstMatch_cons_false g5, firstMatch_cons_false g6,
    firstMatch_cons_true g7]
  show Except.ok (answerYTD hs ts q) = _
  unfold answerYTD
  rw [hex]
  simp only [get_fund_pnl_ytd, if_pos (Nat.pos_of_ne_zero hrows)]
  rw [hmoney]

/-- Holding row of the fund Garfield whose YTD value is 1234567.891, used for
the C7 witness. -/
def C7hold : HoldingRow :=
  ⟨some ("Garfield"), none, none, none, none, none, none, none, none, none, none, none, none,
    none, some ⟨1234567891, 3⟩⟩

/-- C7 witness: the YTD question for Garfield renders the sum as
$1,234,567.89 at a concrete table. -/
theorem C7_witness :
    process_question ⟨some [C7hold], some []⟩ ("ytd pnl for garfield") =
      Except.ok (("YTD P&L for ") ++ ("Garfield") ++ (": ") ++ ("$1,234,567.89")) :=
  C7_money_format [C7hold] [] ("ytd pnl for garfield") _ ("Garfield") rfl
    (by decide) (by decide) (by decide) (by decide) (by decide) (by decide) (by decide)
    (by decide) (by decide)
    (by rw [show sumCells (([C7hold].filter (holdingsFundMask ("Garfield"))).map (·.PL_YTD)) =
          (⟨1234567891, 3⟩ : Decimal) from by decide]
        norm_num [Decimal.toRat])

/-- C9: every fund-scoped aggregation filters rows through the shared
substring masks, and those masks are monotone under substring containment of
the lowered names, so a fund whose name is contained in a longer fund name
also selects the longer-named fund's rows. -/
theorem C9_substring_selection (hs : List HoldingRow) (ts : List TradeRow) (a b : String)
    (hsub : strContains (lowerStr b) (lowerStr a) = true) :
    (∀ r : HoldingRow, holdingsFundMask b r = true → holdingsFundMask a r = true) ∧
    (∀ r : TradeRow, tradesFundMask b r = true → tradesFundMask a r = true) ∧
    (hs.filter (holdingsFundMask b)).Sublist (hs.filter (holdingsFundMask a)) ∧
    (ts.filter (tradesFundMask b)).Sublist (ts.filter (tradesFundMask a)) ∧
    (hs.filter (holdingsFundMask b)).length ≤ (hs.filter (holdingsFundMask a)).length := by
  have hinf : List.IsInfix (lowerStr a).data (lowerStr b).data := by
    unfold strContains at hsub
    exact of_decide_eq_true hsub
  have key : ∀ o : Option String, optContains o (lowerStr b) = true →
      optContains o (lowerStr a) = true := by
    intro o h
    cases o with
    | none => exact absurd h (by simp [optContains])
    | some s =>
        unfold optContains strContains at h ⊢
        rw [decide_eq_true_eq] at h ⊢
        exact hinf.trans h
  have hmask : ∀ r : HoldingRow, holdingsFundMask b r = true → holdingsFundMask a r = true := by
    intro r h
    simp only [holdingsFundMask, Bool.or_eq_true] at h ⊢
    rcases h with h | h
    · exact Or.inl (key _ h)
    · exact Or.inr (key _ h)
  have hmaskT : ∀ r : TradeRow, tradesFundMask b r = true → tradesFundMask a r = true := by
    intro r h
    unfold tradesFundMask at h ⊢
    exact key _ h
  refine ⟨hmask, hmaskT, List.monotone_filter_right hs (fun r h => hmask r h),
    List.monotone_filter_right ts (fun r h => hmaskT r h), ?_⟩
  exact (List.monotone_filter_right hs (fun r h => hmask r h)).length_le

/-- Holding row of the fund named Alpha Two, used for the C9 witness. -/
def C9hold : HoldingRow :=
  ⟨some ("Alpha Two"), none, none, none, none, none, none, none, none, none, none, none, none,
    none, some ⟨5, 0⟩⟩

/-- C9 witness: the rows of the fund Alpha Two are also selected by the filter
of the fund Alpha, whose name is a proper substring. -/
theorem C9_witness :
    ([C9hold].filter (holdingsFundMask ("Alpha Two"))).Sublist
      ([C9hold].filter (holdingsFundMask ("Alpha"))) :=
  (C9_substring_selection [C9hold] [] ("Alpha") ("Alpha Two") (by decide)).2.2.1

/-- Fund extraction reads the question only through its lowering. -/
theorem extract_fund_name_lower (hs : List HoldingRow) (ts : List TradeRow) {q q' : String}
    (h : lowerStr q = lowerStr q') :
    extract_fund_name hs ts q = extract_fund_name hs ts q' := by
  unfold extract_fund_name
  rw [h]

/-- The holdings-count handler reads the question only through its lowering. -/
theorem answerHoldingsCount_lower {q q' : String} (h : lowerStr q = lowerStr q')
    (hs : List HoldingRow) (ts : List TradeRow) :
    answerHoldingsCount hs ts q = answerHoldingsCount hs ts q' := by
  unfold answerHoldingsCount
  rw [extract_fund_name_lower hs ts h]

/-- The trades-count handler reads the question only through its lowering. -/
theorem answerTradesCount_lower {q q' : String} (h : lowerStr q = lowerStr q')
    (hs : List HoldingRow) (ts : List TradeRow) :
    answerTradesCount hs ts q = answerTradesCount hs ts q' := by
  unfold answerTradesCount
  rw [extract_fund_name_lower hs ts h]

/-- The YTD handler reads the question only through its lowering. -/
theorem answerYTD_lower {q q' : String} (h : lowerStr q = lowerStr q')
    (hs : List HoldingRow) (ts : List TradeRow) :
    answerYTD hs ts q = answerYTD hs ts q' := by
  unfold answerYTD
  rw [extract_fund_name_lower hs ts h]

/-- The MTD handler reads the question only through its lowering. -/
theorem answerMTD_lower {q q' : String} (h : lowerStr q = lowerStr q')
    (hs : List HoldingRow) (ts : List TradeRow) :
    answerMTD hs ts q = answerMTD hs ts q' := by
  unfold answerMTD
  rw [extract_fund_name_lower hs ts h]

/-- The QTD handler reads the question only through its lowering. -/
theorem answerQTD_lower {q q' : String} (h : lowerStr q = lowerStr q')
    (hs : List HoldingRow) (ts : List TradeRow) :
    answerQTD hs ts q = answerQTD hs ts q' := by
  unfold answerQTD
  rw [extract_fund_name_lower hs ts h]

/-- The securities handler reads the question only through its lowering. -/
theorem answerSecurities_lower {q q' : String} (h : lowerStr q = lowerStr q')
    (hs : List HoldingRow) (ts : List TradeRow) :
    answerSecurities hs ts q = answerSecurities hs ts q' := by
  unfold answerSecurities
  rw [extract_fund_name_lower hs ts h]

/-- The security-types handler reads the question only through its lowering. -/
theorem answerSecTypes_lower {q q' : String} (h : lowerStr q = lowerStr q')
    (hs : List HoldingRow) (ts : List TradeRow) :
    answerSecTypes hs ts q = answerSecTypes hs ts q' := by
  unfold answerSecTypes
  rw [extract_fund_name_lower hs ts h]

/-- The market-value handler reads the question only through its lowering. -/
theorem answerMV_lower {q q' : String} (h : lowerStr q = lowerStr q')
    (hs : List HoldingRow) (ts : List TradeRow) :
    answerMV hs ts q = answerMV hs ts q' := by
  unfold answerMV
  rw [extract_fund_name_lower hs ts h]

/-- The quantity handler reads the question only through its lowering. -/
theorem answerQty_lower {q q' : String} (h : lowerStr q = lowerStr q')
    (hs : List HoldingRow) (ts : List TradeRow) :
    answerQty hs ts q = answerQty hs ts q' := by
  unfold answerQty
  rw [extract_fund_name_lower hs ts h]

/-- C10: two questions with the same lowering get the same answer: every rule
trigger and the fund extraction read only the lowered question, and no answer
embeds the raw question text. -/
theorem C10_case_insensitive (bot : Chatbot) (q q' : String)
    (h : lowerStr q = lowerStr q') :
    process_question bot q = process_question bot q' := by
  unfold process_question rules
  rw [h]
  simp only [answerHoldingsCount_lower h, answerTradesCount_lower h, answerYTD_lower h,
    answerMTD_lower h, answerQTD_lower h, answerSecurities_lower h, answerSecTypes_lower h,
    answerMV_lower h, answerQty_lower h]

/-- C10 witness: two case variants of a question get the same answer at a
concrete state. -/
theorem C10_witness :
    process_question ⟨some [C5hold], some [C5trade]⟩ ("Help") =
      process_question ⟨some [C5hold], some [C5trade]⟩ ("HELP") :=
  C10_case_insensitive ⟨some [C5hold], some [C5trade]⟩ ("Help") ("HELP") (by decide)
